import Mathlib

/-!
Verification development for the Kiroro SDK (TypeScript).

The definitions below are a shallow embedding of the SDK's source:

* `src/threads-auth.tsx` — the Threads OAuth handshake coordinator and
  session store access (`handleMessage`, `handleCallback`, the session
  restore effect, `getAccessToken`, `logout`).
* `src/wallet.tsx` (`useKiroroWallet`) — the chain-aware wallet router
  (`sendTransaction`, `writeContract`, `signMessage`, `signTypedData`,
  `switchChain`, `waitForTransaction`, `isReady`).
* `src/index.tsx` — the API-key validation effect (`validateKey`).
* `src/hooks/useKiroroEvents.tsx` — the process-wide event bus.

Timestamps (`Date.now()`) are modelled as `Int` milliseconds.  External
collaborators (the Privy smart-account client, the viem public client,
ABI encoding) are modelled as opaque function fields or abstract data,
exactly at the boundary where the SDK code calls into them.
-/

namespace Kiroro

/-- JavaScript `s || d` for strings: the empty string is falsy. -/
def jsOrS (s d : String) : String :=
  if s = "" then d else s

/-- JavaScript `o || d` for an optional string with a string default. -/
def jsOrOpt (o : Option String) (d : String) : String :=
  match o with
  | none => d
  | some s => if s = "" then d else s

/-- JavaScript `o || null` for an optional string (empty string becomes null). -/
def jsStrOrNone (o : Option String) : Option String :=
  match o with
  | none => none
  | some s => if s = "" then none else some s

/-! ## Threads auth: data model (`src/threads-auth.tsx`) -/

/-- The user payload carried by auth responses (`KiroroUser`, identity fields). -/
structure KUser where
  id : String
  username : String
deriving DecidableEq, Repr

/-- Model of `StoredSession` — the record persisted under `kiroro_threads_session`. -/
structure StoredSession where
  accessToken : String
  user : KUser
  expiresAt : Int
deriving DecidableEq, Repr

/-- Payload of a cross-window `MessageEvent.data`.  The SDK reads `type`,
`token`, `user` and `error`; a `state` field may be present on the wire but
the source never reads it. -/
structure MsgData where
  mtype : String
  token : String
  muser : KUser
  merror : String
  mstate : String
deriving DecidableEq, Repr

/-- A cross-window message: its sender origin plus the data payload. -/
structure MessageEvent where
  origin : String
  data : MsgData
deriving DecidableEq, Repr

/-- The provider-visible handshake / session state of `ThreadsAuthProvider`:
React state (`isLoading`, `error`, `user`, `accessToken`), the durable
`localStorage` slot (`storage`), the tab-scoped `sessionStorage` correlation
entries (`oauthState`, `clientIdStored`), and the popup/listener lifecycle. -/
structure HState where
  isLoading : Bool
  error : Option String
  user : Option KUser
  accessToken : Option String
  storage : Option StoredSession
  oauthState : Option String
  clientIdStored : Option String
  popupOpen : Bool
  listenerActive : Bool
deriving DecidableEq, Repr

/-- The fixed session TTL used on every session write: `60 * 60 * 1000` ms. -/
def SESSION_TTL : Int := 60 * 60 * 1000

/-- The lookahead buffer of the validity check: `5 * 60 * 1000` ms. -/
def GRACE_WINDOW : Int := 5 * 60 * 1000

/-- Model of `initiateThreadsLogin`, restricted to its state effects before the popup
answers: stores the freshly generated CSRF `state` and the `clientId` in
tab-scoped storage, sets `isLoading`, clears `error`, opens the popup and
registers the message listener. -/
def initiateThreadsLogin (st : HState) (state clientId : String) : HState :=
  { st with
      isLoading := true
      error := none
      oauthState := some state
      clientIdStored := some clientId
      popupOpen := true
      listenerActive := true }

/-- Model of `handleMessage` from `initiateThreadsLogin` (src/threads-auth.tsx):
processes one cross-window message against the backend origin `backend` at
time `now`.  Returns the successor state together with the session written to
durable storage by this call (`none` when no `localStorage.setItem` ran). -/
def handleMessage (backend : String) (now : Int) (st : HState) (e : MessageEvent) :
    HState × Option StoredSession :=
  if e.origin ≠ backend then (st, none)
  else if e.data.mtype = "KIRORO_AUTH_SUCCESS" then
    let session : StoredSession := ⟨e.data.token, e.data.muser, now + SESSION_TTL⟩
    ({ st with
        accessToken := some e.data.token
        user := some e.data.muser
        isLoading := false
        storage := some session
        popupOpen := false
        listenerActive := false }, some session)
  else if e.data.mtype = "KIRORO_AUTH_ERROR" then
    ({ st with
        error := some (jsOrS e.data.merror "Authentication failed")
        isLoading := false
        popupOpen := false
        listenerActive := false }, none)
  else (st, none)

/-- Outcome of the `fetch` to `backendUrl/api/threads/callback`:
either the request itself threw, or a response with `response.ok` and a
parsed body `{success, token, user, error}`. -/
inductive CbFetch where
  | networkError (message : String)
  | response (ok : Bool) (success : Bool) (token : String) (user : KUser)
      (error : Option String)
deriving DecidableEq, Repr

/-- Model of `handleCallback` (redirect path, src/threads-auth.tsx): runs the whole
callback exchange at time `now` on state `st`, given the fetch outcome.
Returns the final state and the session written to durable storage. -/
def handleCallback (now : Int) (st : HState) (f : CbFetch) :
    HState × Option StoredSession :=
  match f with
  | .networkError msg =>
      ({ st with error := some (jsOrS msg "Authentication failed"), isLoading := false },
       none)
  | .response ok success tok u err =>
      if ok && success then
        let session : StoredSession := ⟨tok, u, now + SESSION_TTL⟩
        ({ st with
            error := none
            accessToken := some tok
            user := some u
            isLoading := false
            storage := some session }, some session)
      else
        ({ st with
            error := some (jsOrOpt err "Authentication failed")
            isLoading := false }, none)

/-- The mount-time session restore effect (src/threads-auth.tsx, lines 51-71):
given the parsed durable record and the current time, returns the restored
`(user, accessToken)` pair and the durable storage content afterwards. -/
def restoreSession (stored : Option StoredSession) (now : Int) :
    Option KUser × Option String × Option StoredSession :=
  match stored with
  | none => (none, none, none)
  | some s =>
      if now + GRACE_WINDOW < s.expiresAt then (some s.user, some s.accessToken, some s)
      else (none, none, none)

/-- Model of `getAccessToken` (src/threads-auth.tsx, lines 218-232): re-reads the
durable record; returns its token while still inside the validity window,
otherwise falls back to the in-memory token. -/
def getAccessToken (stored : Option StoredSession) (now : Int)
    (memToken : Option String) : Option String :=
  match stored with
  | none => memToken
  | some s =>
      if now + GRACE_WINDOW < s.expiresAt then some s.accessToken else memToken

end Kiroro

namespace Kiroro

/-! ## Claim C1 / C2 statements -/

/-- Concrete initial handshake state used by witnesses. -/
def exState0 : HState :=
  { isLoading := true
    error := none
    user := none
    accessToken := none
    storage := none
    oauthState := some "st-123"
    clientIdStored := some "client_1"
    popupOpen := true
    listenerActive := true }

/-- Concrete foreign-origin message used by the C1 witness. -/
def exForeignEvent : MessageEvent :=
  { origin := "https://evil.example"
    data :=
      { mtype := "KIRORO_AUTH_SUCCESS"
        token := "tkn-evil"
        muser := ⟨"u9", "mallory"⟩
        merror := ""
        mstate := "st-123" } }

/-- Concrete message used by the C3 counterexample: correct origin and type,
but a `state` token different from the one stored at initiation. -/
def exForgedStateEvent : MessageEvent :=
  { origin := "https://app.kiroro.xyz"
    data :=
      { mtype := "KIRORO_AUTH_SUCCESS"
        token := "tkn-1"
        muser := ⟨"u1", "alice"⟩
        merror := ""
        mstate := "forged-state" } }

/-! ## Wallet router (`src/wallet.tsx`, `useKiroroWallet`) -/

/-- The payload handed to the smart-account client's `sendTransaction`:
either raw calldata (`sendTransaction` path) or calldata produced by
`encodeFunctionData` from an ABI function name and arguments
(`writeContract` path). -/
inductive TxData where
  | raw (s : String)
  | encoded (functionName : String) (args : List String)
deriving DecidableEq, Repr

/-- A transaction as submitted to the smart-account client. -/
structure Tx where
  toAddr : String
  value : Int
  txdata : TxData
deriving DecidableEq, Repr

/-- The Privy smart-account client, modelled at the boundary the SDK uses:
an optional resolved account address, an optional current chain id, and
opaque capabilities for sending and signing. -/
structure SmartClient where
  account : Option String
  chainId : Option Nat
  send : Tx → String
  signMsg : String → String
  signTyped : String → String

/-- Model of `SendTransactionRequest` — `{to, value?, data?}`. -/
structure SendTransactionRequest where
  toAddr : String
  value : Option Int
  tdata : Option String
deriving DecidableEq, Repr

/-- Model of `WriteContractRequest` — `{address, abi, functionName, args?, value?}`
(the ABI itself is consumed by encoding and not otherwise inspected). -/
structure WriteContractRequest where
  address : String
  functionName : String
  args : Option (List String)
  value : Option Int
deriving DecidableEq, Repr

/-- The wallet error taxonomy raised by router operations. -/
inductive WalletError where
  | walletNotReady
  | unsupportedChain (id : Nat)
deriving DecidableEq, Repr

/-- The static chain registry `SUPPORTED_CHAINS`:
base, baseSepolia, arbitrum, optimism, polygon, mainnet (by chain id). -/
def SUPPORTED_CHAIN_IDS : List Nat := [8453, 84532, 42161, 10, 137, 1]

/-- Model of `useKiroroWallet.sendTransaction`: throws wallet-not-ready when no
smart-account client is bound, otherwise delegates to the client with
defaults `value = 0`, `data = "0x"`. -/
def sendTransaction (client : Option SmartClient) (r : SendTransactionRequest) :
    Except WalletError String :=
  match client with
  | none => .error .walletNotReady
  | some c => .ok (c.send ⟨r.toAddr, r.value.getD 0, .raw (r.tdata.getD "0x")⟩)

/-- Model of `useKiroroWallet.writeContract`: throws wallet-not-ready when no client
is bound, otherwise encodes the call and delegates to the same client
`sendTransaction` capability. -/
def writeContract (client : Option SmartClient) (r : WriteContractRequest) :
    Except WalletError String :=
  match client with
  | none => .error .walletNotReady
  | some c =>
      .ok (c.send ⟨r.address, r.value.getD 0, .encoded r.functionName (r.args.getD [])⟩)

/-- Model of `useKiroroWallet.signMessage`. -/
def signMessage (client : Option SmartClient) (m : String) :
    Except WalletError String :=
  match client with
  | none => .error .walletNotReady
  | some c => .ok (c.signMsg m)

/-- Model of `useKiroroWallet.signTypedData` (the EIP-712 payload is opaque here). -/
def signTypedData (client : Option SmartClient) (td : String) :
    Except WalletError String :=
  match client with
  | none => .error .walletNotReady
  | some c => .ok (c.signTyped td)

/-- Model of `useKiroroWallet.switchChain`: wallet-not-ready without a client;
unsupported-chain when the target id is absent from the registry; otherwise
delegates to the client. -/
def switchChain (client : Option SmartClient) (targetChainId : Nat) :
    Except WalletError Unit :=
  match client with
  | none => .error .walletNotReady
  | some _ =>
      if targetChainId ∈ SUPPORTED_CHAIN_IDS then .ok ()
      else .error (.unsupportedChain targetChainId)

/-- Chain lookup with lenient fallback: `SUPPORTED_CHAINS[id] ?? base`. -/
def resolveChainId (id : Nat) : Nat :=
  if id ∈ SUPPORTED_CHAIN_IDS then id else 8453

/-- Model of `chainId` of the router: `client?.chain?.id ?? base.id`. -/
def currentChainId (client : Option SmartClient) : Nat :=
  (client.bind fun c => c.chainId).getD 8453

/-- Model of `useKiroroWallet.waitForTransaction`: builds a read-only public client on
the resolved chain (lenient fallback to base) and polls for the receipt; the
network is modelled as a `chainId → hash → receipt` oracle.  No smart-account
client check is performed. -/
def waitForTransaction (client : Option SmartClient)
    (net : Nat → String → String) (hash : String) : Except WalletError String :=
  .ok (net (resolveChainId (currentChainId client)) hash)

/-- The router state visible to `useKiroroWallet`: Privy readiness, the
optional smart-account client, and the EOA (underlying signer) address. -/
structure WalletRouterState where
  privyReady : Bool
  client : Option SmartClient
  eoaAddress : Option String

/-- Model of `smartWalletAddress` — `client?.account?.address`. -/
def smartWalletAddress (w : WalletRouterState) : Option String :=
  w.client.bind fun c => c.account

/-- Model of `address` — primary address: smart wallet if present, else the EOA. -/
def routerAddress (w : WalletRouterState) : Option String :=
  (smartWalletAddress w).orElse fun _ => w.eoaAddress

/-- Model of `isReady` — `privyReady && !!client && !!smartWalletAddress`. -/
def isReady (w : WalletRouterState) : Bool :=
  w.privyReady && w.client.isSome && (smartWalletAddress w).isSome

/-- Concrete network oracle used by the C4 counterexample. -/
def exNet : Nat → String → String := fun _ _ => "receipt-ok"

/-- Concrete network oracle used by the C5 witness. -/
def exNet2 : Nat → String → String := fun cid _ => "receipt-" ++ toString cid

/-- Concrete smart-account client sitting on an unregistered chain id,
used by the C5 witness. -/
def exClient99999 : SmartClient :=
  { account := some "0xacc"
    chainId := some 99999
    send := fun _ => "0xhash-send"
    signMsg := fun _ => "0xsig"
    signTyped := fun _ => "0xsig-typed" }

/-- Concrete same-origin success message used by the C6 witness. -/
def exOkEvent : MessageEvent :=
  { origin := "https://app.kiroro.xyz"
    data :=
      { mtype := "KIRORO_AUTH_SUCCESS"
        token := "tkn-ok"
        muser := ⟨"u2", "bob"⟩
        merror := ""
        mstate := "st-123" } }

/-! ## API-key validation (`src/index.tsx`, `validateKey`) -/

/-- Outcome of the `fetch` to `backendUrl/api/validate-key`: either the
request threw (backend unreachable) or a response with `response.ok` and a
parsed body `{valid, projectName, tier, error}`. -/
inductive KeyFetch where
  | networkError
  | response (ok : Bool) (valid : Bool) (projectName : Option String)
      (tier : Option String) (error : Option String)
deriving DecidableEq, Repr

/-- The validation-related provider state after `validateKey` completes. -/
structure KeyValidationState where
  isValidated : Bool
  validating : Bool
  error : Option String
  projectName : Option String
  tier : Option String
  warned : Bool
deriving DecidableEq, Repr

/-- Model of `validateKey` (src/index.tsx): validates the configured client id
against the backend; a missing id is a config error, an unreachable backend
is downgraded to a warning with `isValidated = true`, and `validating`
is reset in the `finally` of every run. -/
def validateKey (kiroroClientId : String) (f : KeyFetch) : KeyValidationState :=
  if kiroroClientId = "" then
    { isValidated := false, validating := false
      error := some "kiroroClientId is required"
      projectName := none, tier := none, warned := false }
  else
    match f with
    | .networkError =>
        { isValidated := true, validating := false, error := none
          projectName := none, tier := none, warned := true }
    | .response ok valid pn tr er =>
        if ok && valid then
          { isValidated := true, validating := false, error := none
            projectName := jsStrOrNone pn
            tier := some (jsOrOpt tr "starter"), warned := false }
        else
          { isValidated := false, validating := false
            error := some (jsOrOpt er "Invalid API Key")
            projectName := none, tier := none, warned := false }

/-! ## Event bus (`src/hooks/useKiroroEvents.tsx`) -/

/-- JavaScript `Set.add`: no-op when the element is already present,
otherwise appends it (insertion order preserved). -/
def setAdd (s : List Nat) (cb : Nat) : List Nat :=
  if cb ∈ s then s else s ++ [cb]

/-- JavaScript `Set.delete`: removes the element. -/
def setDelete (s : List Nat) (cb : Nat) : List Nat :=
  s.erase cb

/-- The module-global `eventCallbacks` registry: one subscriber set per
event kind (callbacks are identified by `Nat` keys, standing for object
identity of the function values). -/
structure EventCallbacks where
  onTransactionSent : List Nat
  onTransactionConfirmed : List Nat
  onTransactionFailed : List Nat
  onChainChanged : List Nat
  onWalletCreated : List Nat
deriving DecidableEq, Repr

/-- The five event kinds of the bus. -/
inductive EventKind where
  | transactionSent
  | transactionConfirmed
  | transactionFailed
  | chainChanged
  | walletCreated
deriving DecidableEq, Repr

/-- The subscriber set of one event kind. -/
def getCallbacks (ec : EventCallbacks) (k : EventKind) : List Nat :=
  match k with
  | .transactionSent => ec.onTransactionSent
  | .transactionConfirmed => ec.onTransactionConfirmed
  | .transactionFailed => ec.onTransactionFailed
  | .chainChanged => ec.onChainChanged
  | .walletCreated => ec.onWalletCreated

/-- Model of `useKiroroEvents` subscription: `eventCallbacks.<kind>.add(callback)`. -/
def subscribe (ec : EventCallbacks) (k : EventKind) (cb : Nat) : EventCallbacks :=
  match k with
  | .transactionSent => { ec with onTransactionSent := setAdd ec.onTransactionSent cb }
  | .transactionConfirmed =>
      { ec with onTransactionConfirmed := setAdd ec.onTransactionConfirmed cb }
  | .transactionFailed =>
      { ec with onTransactionFailed := setAdd ec.onTransactionFailed cb }
  | .chainChanged => { ec with onChainChanged := setAdd ec.onChainChanged cb }
  | .walletCreated => { ec with onWalletCreated := setAdd ec.onWalletCreated cb }

/-- The returned unsubscribe closure: `eventCallbacks.<kind>.delete(callback)`. -/
def unsubscribe (ec : EventCallbacks) (k : EventKind) (cb : Nat) : EventCallbacks :=
  match k with
  | .transactionSent =>
      { ec with onTransactionSent := setDelete ec.onTransactionSent cb }
  | .transactionConfirmed =>
      { ec with onTransactionConfirmed := setDelete ec.onTransactionConfirmed cb }
  | .transactionFailed =>
      { ec with onTransactionFailed := setDelete ec.onTransactionFailed cb }
  | .chainChanged => { ec with onChainChanged := setDelete ec.onChainChanged cb }
  | .walletCreated => { ec with onWalletCreated := setDelete ec.onWalletCreated cb }

/-- Model of `kiroroEvents.emit*`: the `forEach` over the subscriber set — the list of
callback invocations of one emission, in registration order. -/
def emitOrder (ec : EventCallbacks) (k : EventKind) : List Nat :=
  getCallbacks ec k

/-- Concrete bus state used by the C10 witness. -/
def exBus : EventCallbacks :=
  { onTransactionSent := [5]
    onTransactionConfirmed := []
    onTransactionFailed := []
    onChainChanged := []
    onWalletCreated := [] }

end Kiroro

/-- C1: for a handshake against backend origin `O`, a cross-window message
whose origin differs from `O` leaves the handshake state unchanged (no
success, no error, no loading change) and writes no session to durable
storage. -/
theorem Kiroro.c1_foreign_origin_ignored (backend : String) (now : Int)
    (st : Kiroro.HState) (e : Kiroro.MessageEvent) (h : e.origin ≠ backend) :
    Kiroro.handleMessage backend now st e = (st, none) := by
  simp [Kiroro.handleMessage, h]

/-- Witness for C1 at a concrete foreign-origin success message. -/
theorem Kiroro.c1_foreign_origin_ignored_witness :
    Kiroro.exForeignEvent.origin ≠ "https://app.kiroro.xyz" ∧
      Kiroro.handleMessage "https://app.kiroro.xyz" 1700000000000 Kiroro.exState0
        Kiroro.exForeignEvent = (Kiroro.exState0, none) :=
  ⟨by decide,
   Kiroro.c1_foreign_origin_ignored "https://app.kiroro.xyz" 1700000000000
     Kiroro.exState0 Kiroro.exForeignEvent (by decide)⟩

/-- C3 counterexample: an attempt is initiated with correlation state
`"legit-state"`, yet a success message carrying the different state token
`"forged-state"` (from the correct origin) is accepted — the handshake
transitions to success and a session is written — refuting the claim that
acceptance requires the message's state to match the stored one. -/
theorem Kiroro.c3_state_not_checked_counterexample :
    (Kiroro.initiateThreadsLogin Kiroro.exState0 "legit-state" "client_1").oauthState
        = some "legit-state" ∧
    Kiroro.exForgedStateEvent.data.mstate ≠ "legit-state" ∧
    (Kiroro.handleMessage "https://app.kiroro.xyz" 1700000000000
        (Kiroro.initiateThreadsLogin Kiroro.exState0 "legit-state" "client_1")
        Kiroro.exForgedStateEvent).2
      = some ⟨"tkn-1", ⟨"u1", "alice"⟩, 1700000000000 + Kiroro.SESSION_TTL⟩ := by
  refine ⟨rfl, by decide, ?_⟩
  decide

/-- C3 amended: a `KIRORO_AUTH_SUCCESS` completion message is accepted
(writes a session) exactly when its origin equals the backend origin and its
type is `KIRORO_AUTH_SUCCESS`; the state token carried by the message is
never compared with the stored correlation state, and the outcome is
invariant under changing the message's state field. -/
theorem Kiroro.c3_amended_origin_only_acceptance (backend : String) (now : Int)
    (st : Kiroro.HState) (e : Kiroro.MessageEvent) (s1 s2 : String) :
    ((Kiroro.handleMessage backend now st e).2.isSome =
      (decide (e.origin = backend) && decide (e.data.mtype = "KIRORO_AUTH_SUCCESS"))) ∧
    (Kiroro.handleMessage backend now st
        ⟨e.origin, ⟨e.data.mtype, e.data.token, e.data.muser, e.data.merror, s1⟩⟩ =
      Kiroro.handleMessage backend now st
        ⟨e.origin, ⟨e.data.mtype, e.data.token, e.data.muser, e.data.merror, s2⟩⟩) := by
  constructor
  · by_cases h1 : e.origin = backend
    · by_cases h2 : e.data.mtype = "KIRORO_AUTH_SUCCESS"
      · simp [Kiroro.handleMessage, h1, h2]
      · by_cases h3 : e.data.mtype = "KIRORO_AUTH_ERROR" <;>
          simp [Kiroro.handleMessage, h1, h2, h3]
    · simp [Kiroro.handleMessage, h1]
  · by_cases h1 : e.origin = backend
    · by_cases h2 : e.data.mtype = "KIRORO_AUTH_SUCCESS"
      · simp [Kiroro.handleMessage, h1, h2]
      · by_cases h3 : e.data.mtype = "KIRORO_AUTH_ERROR" <;>
          simp [Kiroro.handleMessage, h1, h2, h3]
    · simp [Kiroro.handleMessage, h1]

/-- C6: on every successful authentication — popup message path and
redirect-callback path alike — the session written to durable storage has
`expiresAt = now + SESSION_TTL` (the fixed one-hour TTL), independent of the
token and user carried by the response. -/
theorem Kiroro.c6_session_ttl_fixed (backend : String) (now : Int)
    (st : Kiroro.HState) (e : Kiroro.MessageEvent)
    (hO : e.origin = backend) (hT : e.data.mtype = "KIRORO_AUTH_SUCCESS") :
    ((Kiroro.handleMessage backend now st e).2 =
      some ⟨e.data.token, e.data.muser, now + 60 * 60 * 1000⟩) ∧
    (∀ (st' : Kiroro.HState) (tok : String) (u : Kiroro.KUser) (err : Option String),
      (Kiroro.handleCallback now st' (.response true true tok u err)).2 =
        some ⟨tok, u, now + 60 * 60 * 1000⟩) := by
  constructor
  · simp [Kiroro.handleMessage, hO, hT, Kiroro.SESSION_TTL]
  · intro st' tok u err
    simp [Kiroro.handleCallback, Kiroro.SESSION_TTL]

/-- Witness for C6 at a concrete same-origin success message. -/
theorem Kiroro.c6_session_ttl_fixed_witness :
    Kiroro.exOkEvent.origin = "https://app.kiroro.xyz" ∧
    Kiroro.exOkEvent.data.mtype = "KIRORO_AUTH_SUCCESS" ∧
    ((Kiroro.handleMessage "https://app.kiroro.xyz" 2000 Kiroro.exState0
        Kiroro.exOkEvent).2 = some ⟨"tkn-ok", ⟨"u2", "bob"⟩, 2000 + 60 * 60 * 1000⟩) ∧
    ((Kiroro.handleCallback 2000 Kiroro.exState0
        (.response true true "tkn-cb" ⟨"u3", "carol"⟩ none)).2 =
      some ⟨"tkn-cb", ⟨"u3", "carol"⟩, 2000 + 60 * 60 * 1000⟩) := by
  have h := Kiroro.c6_session_ttl_fixed "https://app.kiroro.xyz" 2000 Kiroro.exState0
    Kiroro.exOkEvent rfl rfl
  exact ⟨rfl, rfl, h.1, h.2 Kiroro.exState0 "tkn-cb" ⟨"u3", "carol"⟩ none⟩

/-- C2: a stored session is treated as valid — restored on startup, its token
returned by `getAccessToken` — exactly when `expiresAt - now` exceeds the
5-minute grace window; a record at or past that bound yields no restore (and
the durable record is cleared) and `getAccessToken` falls back to the
in-memory token instead of the stored one. -/
theorem Kiroro.c2_grace_window_validity (s : Kiroro.StoredSession) (now : Int)
    (mem : Option String) :
    (Kiroro.restoreSession (some s) now =
      if Kiroro.GRACE_WINDOW < s.expiresAt - now then
        (some s.user, some s.accessToken, some s)
      else (none, none, none)) ∧
    (Kiroro.getAccessToken (some s) now mem =
      if Kiroro.GRACE_WINDOW < s.expiresAt - now then some s.accessToken else mem) := by
  constructor
  · show (if now + Kiroro.GRACE_WINDOW < s.expiresAt then _ else _) = _
    by_cases h : Kiroro.GRACE_WINDOW < s.expiresAt - now
    · rw [if_pos (by omega), if_pos h]
    · rw [if_neg (by omega), if_neg h]
  · show (if now + Kiroro.GRACE_WINDOW < s.expiresAt then _ else _) = _
    by_cases h : Kiroro.GRACE_WINDOW < s.expiresAt - now
    · rw [if_pos (by omega), if_pos h]
    · rw [if_neg (by omega), if_neg h]

/-- C4 counterexample: with no smart-account client bound,
`waitForTransaction` does not throw the wallet-not-ready error — it proceeds
through the read-only public client and yields a receipt — refuting the
claim that every listed wallet operation throws wallet-not-ready before a
client exists. -/
theorem Kiroro.c4_wait_no_ready_guard_counterexample :
    Kiroro.waitForTransaction none Kiroro.exNet "0xhash" = Except.ok "receipt-ok" ∧
    Kiroro.waitForTransaction none Kiroro.exNet "0xhash" ≠
      Except.error Kiroro.WalletError.walletNotReady :=
  ⟨rfl, fun h => Except.noConfusion h⟩

/-- C4 amended: `sendTransaction`, `writeContract`, `signMessage`,
`signTypedData` and `switchChain` all throw the wallet-not-ready error when
no smart-account client is bound (`waitForTransaction` alone has no such
guard), and once a client is bound `sendTransaction` and `writeContract`
both succeed, each returning a hash produced by the same underlying client
send capability. -/
theorem Kiroro.c4_amended_not_ready_guards (r : Kiroro.SendTransactionRequest)
    (wr : Kiroro.WriteContractRequest) (m td : String) (id : Nat) :
    Kiroro.sendTransaction none r = .error .walletNotReady ∧
    Kiroro.writeContract none wr = .error .walletNotReady ∧
    Kiroro.signMessage none m = .error .walletNotReady ∧
    Kiroro.signTypedData none td = .error .walletNotReady ∧
    Kiroro.switchChain none id = .error .walletNotReady ∧
    ∀ c : Kiroro.SmartClient,
      Kiroro.sendTransaction (some c) r =
        .ok (c.send ⟨r.toAddr, r.value.getD 0, .raw (r.tdata.getD "0x")⟩) ∧
      Kiroro.writeContract (some c) wr =
        .ok (c.send ⟨wr.address, wr.value.getD 0,
          .encoded wr.functionName (wr.args.getD [])⟩) :=
  ⟨rfl, rfl, rfl, rfl, rfl, fun _ => ⟨rfl, rfl⟩⟩

/-- C5: for a chain id absent from the static registry, `switchChain` (with a
client bound) throws the unsupported-chain error, while the read-only client
construction used by `waitForTransaction` does not error and falls back to
the fixed default network, Base (id 8453). -/
theorem Kiroro.c5_strict_switch_lenient_read (c c' : Kiroro.SmartClient)
    (id : Nat) (h : id ∉ Kiroro.SUPPORTED_CHAIN_IDS)
    (net : Nat → String → String) (hsh : String) (hc : c'.chainId = some id) :
    Kiroro.switchChain (some c) id = .error (.unsupportedChain id) ∧
    Kiroro.resolveChainId id = 8453 ∧
    Kiroro.waitForTransaction (some c') net hsh = .ok (net 8453 hsh) := by
  refine ⟨?_, ?_, ?_⟩
  · simp [Kiroro.switchChain, h]
  · simp [Kiroro.resolveChainId, h]
  · simp [Kiroro.waitForTransaction, Kiroro.currentChainId, Kiroro.resolveChainId, hc, h]

/-- Witness for C5 at the unregistered chain id 99999. -/
theorem Kiroro.c5_strict_switch_lenient_read_witness :
    (99999 ∉ Kiroro.SUPPORTED_CHAIN_IDS) ∧
    Kiroro.exClient99999.chainId = some 99999 ∧
    (Kiroro.switchChain (some Kiroro.exClient99999) 99999 =
        .error (.unsupportedChain 99999) ∧
      Kiroro.resolveChainId 99999 = 8453 ∧
      Kiroro.waitForTransaction (some Kiroro.exClient99999) Kiroro.exNet2 "0xabc" =
        .ok (Kiroro.exNet2 8453 "0xabc")) :=
  ⟨by decide, rfl,
   Kiroro.c5_strict_switch_lenient_read Kiroro.exClient99999 Kiroro.exClient99999
     99999 (by decide) Kiroro.exNet2 "0xabc" rfl⟩

/-- C7: `isReady` is true exactly when the identity provider reports ready,
a smart-account client exists, and that client has a resolved account
address; in particular a signer-only state — an EOA address present but the
client's account address unresolved — is never ready. -/
theorem Kiroro.c7_isReady_characterisation :
    (∀ w : Kiroro.WalletRouterState,
      Kiroro.isReady w = true ↔
        w.privyReady = true ∧
          ∃ c, w.client = some c ∧ ∃ a, c.account = some a) ∧
    (∀ (pr : Bool) (cid : Option Nat) (f : Kiroro.Tx → String)
        (g h : String → String) (eoa : String),
      Kiroro.isReady
        ⟨pr, some ⟨none, cid, f, g, h⟩, some eoa⟩ = false) := by
  constructor
  · intro w
    constructor
    · intro hrd
      simp only [Kiroro.isReady, Kiroro.smartWalletAddress, Bool.and_eq_true] at hrd
      obtain ⟨⟨hpr, _⟩, hsome⟩ := hrd
      cases hcl : w.client with
      | none => rw [hcl] at hsome; simp at hsome
      | some c =>
          rw [hcl] at hsome
          cases hac : c.account with
          | none => simp [hac] at hsome
          | some a => exact ⟨hpr, c, rfl, a, hac⟩
    · rintro ⟨hpr, c, hcl, a, hac⟩
      simp [Kiroro.isReady, Kiroro.smartWalletAddress, hcl, hac, hpr]
  · intro pr cid f g h eoa
    simp [Kiroro.isReady, Kiroro.smartWalletAddress]

/-- C9: in the state where a smart-account client is bound but its account
address is not yet resolved, `isReady` is false, yet `sendTransaction` and
`writeContract` do not raise the wallet-not-ready error and delegate to the
client: their guard checks only client existence, not the full `isReady`
condition. -/
theorem Kiroro.c9_guard_weaker_than_isReady (pr : Bool) (cid : Option Nat)
    (f : Kiroro.Tx → String) (g h : String → String) (eoa : Option String)
    (r : Kiroro.SendTransactionRequest) (wr : Kiroro.WriteContractRequest) :
    Kiroro.isReady ⟨pr, some ⟨none, cid, f, g, h⟩, eoa⟩ = false ∧
    Kiroro.sendTransaction (some ⟨none, cid, f, g, h⟩) r =
      .ok (f ⟨r.toAddr, r.value.getD 0, .raw (r.tdata.getD "0x")⟩) ∧
    Kiroro.writeContract (some ⟨none, cid, f, g, h⟩) wr =
      .ok (f ⟨wr.address, wr.value.getD 0,
        .encoded wr.functionName (wr.args.getD [])⟩) := by
  refine ⟨?_, rfl, rfl⟩
  simp [Kiroro.isReady, Kiroro.smartWalletAddress]

/-- C8: when the key-validation network request itself fails (backend
unreachable), the outcome is `isValidated = true` with a warning and no
error state (soft pass); and every run of validation — any client id, any
fetch outcome — ends with `validating = false`. -/
theorem Kiroro.c8_network_failure_soft_pass (cid : String) (h : cid ≠ "") :
    (Kiroro.validateKey cid .networkError).isValidated = true ∧
    (Kiroro.validateKey cid .networkError).warned = true ∧
    (Kiroro.validateKey cid .networkError).error = none ∧
    ∀ (cid' : String) (f : Kiroro.KeyFetch),
      (Kiroro.validateKey cid' f).validating = false := by
  refine ⟨?_, ?_, ?_, ?_⟩
  · simp [Kiroro.validateKey, h]
  · simp [Kiroro.validateKey, h]
  · simp [Kiroro.validateKey, h]
  · intro cid' f
    unfold Kiroro.validateKey
    split
    · rfl
    · cases f with
      | networkError => rfl
      | response ok valid pn tr er => dsimp only; split <;> rfl

/-- Witness for C8 at a concrete non-empty client id. -/
theorem Kiroro.c8_network_failure_soft_pass_witness :
    ("kiro_abc" ≠ "") ∧
    ((Kiroro.validateKey "kiro_abc" .networkError).isValidated = true ∧
      (Kiroro.validateKey "kiro_abc" .networkError).warned = true ∧
      (Kiroro.validateKey "kiro_abc" .networkError).error = none ∧
      ∀ (cid' : String) (f : Kiroro.KeyFetch),
        (Kiroro.validateKey cid' f).validating = false) :=
  ⟨by decide, Kiroro.c8_network_failure_soft_pass "kiro_abc" (by decide)⟩

/-! Shared list lemmas about the JS-`Set` model of the event bus. -/

lemma Kiroro.setDelete_setAdd_of_not_mem (s : List Nat) (cb : Nat) (h : cb ∉ s) :
    Kiroro.setDelete (Kiroro.setAdd s cb) cb = s := by
  simp only [Kiroro.setAdd, Kiroro.setDelete, if_neg h]
  rw [List.erase_append_right _ h]; simp

lemma Kiroro.setAdd_idem (s : List Nat) (cb : Nat) :
    Kiroro.setAdd (Kiroro.setAdd s cb) cb = Kiroro.setAdd s cb := by
  unfold Kiroro.setAdd
  by_cases h : cb ∈ s
  · simp [h]
  · simp [h]

lemma Kiroro.setAdd_count_one (s : List Nat) (cb : Nat) (h : s.Nodup) :
    (Kiroro.setAdd s cb).count cb = 1 := by
  unfold Kiroro.setAdd
  by_cases hm : cb ∈ s
  · rw [if_pos hm]; exact List.count_eq_one_of_mem h hm
  · rw [if_neg hm, List.count_append]
    simp [List.count_eq_zero_of_not_mem hm]

lemma Kiroro.setAdd_nodup (s : List Nat) (cb : Nat) (h : s.Nodup) :
    (Kiroro.setAdd s cb).Nodup := by
  unfold Kiroro.setAdd
  by_cases hm : cb ∈ s
  · rw [if_pos hm]; exact h
  · rw [if_neg hm, List.nodup_append]
    exact ⟨h, List.nodup_singleton cb, by
      simp [List.Disjoint]
      intro a ha hb
      exact hm (hb ▸ ha)⟩

lemma Kiroro.not_mem_setDelete_of_nodup (s : List Nat) (cb : Nat) (h : s.Nodup) :
    cb ∉ Kiroro.setDelete s cb := by
  intro hm
  rw [Kiroro.setDelete, h.mem_erase_iff] at hm
  exact hm.1 rfl

lemma Kiroro.getCallbacks_subscribe (ec : Kiroro.EventCallbacks)
    (k : Kiroro.EventKind) (cb : Nat) :
    Kiroro.getCallbacks (Kiroro.subscribe ec k cb) k =
      Kiroro.setAdd (Kiroro.getCallbacks ec k) cb := by
  cases k <;> rfl

lemma Kiroro.subscribe_unsubscribe_cancel (ec : Kiroro.EventCallbacks)
    (k : Kiroro.EventKind) (cb : Nat) (h : cb ∉ Kiroro.getCallbacks ec k) :
    Kiroro.unsubscribe (Kiroro.subscribe ec k cb) k cb = ec := by
  cases k with
  | transactionSent =>
      have h' : cb ∉ ec.onTransactionSent := h
      simp [Kiroro.subscribe, Kiroro.unsubscribe,
        Kiroro.setDelete_setAdd_of_not_mem _ _ h']
  | transactionConfirmed =>
      have h' : cb ∉ ec.onTransactionConfirmed := h
      simp [Kiroro.subscribe, Kiroro.unsubscribe,
        Kiroro.setDelete_setAdd_of_not_mem _ _ h']
  | transactionFailed =>
      have h' : cb ∉ ec.onTransactionFailed := h
      simp [Kiroro.subscribe, Kiroro.unsubscribe,
        Kiroro.setDelete_setAdd_of_not_mem _ _ h']
  | chainChanged =>
      have h' : cb ∉ ec.onChainChanged := h
      simp [Kiroro.subscribe, Kiroro.unsubscribe,
        Kiroro.setDelete_setAdd_of_not_mem _ _ h']
  | walletCreated =>
      have h' : cb ∉ ec.onWalletCreated := h
      simp [Kiroro.subscribe, Kiroro.unsubscribe,
        Kiroro.setDelete_setAdd_of_not_mem _ _ h']

/-- C10: for every event kind and callback, on a duplicate-free registry:
subscribing a fresh callback and invoking the returned unsubscribe restores
the registry to its prior state; subscribing an already-subscribed callback
is idempotent; one emission after subscribing invokes the callback exactly
once; and after a double subscribe, a single unsubscribe fully removes the
callback from the emission order. -/
theorem Kiroro.c10_event_bus_set_semantics (ec : Kiroro.EventCallbacks)
    (k : Kiroro.EventKind) (cb : Nat) (h : (Kiroro.getCallbacks ec k).Nodup) :
    (cb ∉ Kiroro.getCallbacks ec k →
      Kiroro.unsubscribe (Kiroro.subscribe ec k cb) k cb = ec) ∧
    Kiroro.subscribe (Kiroro.subscribe ec k cb) k cb = Kiroro.subscribe ec k cb ∧
    (Kiroro.emitOrder (Kiroro.subscribe ec k cb) k).count cb = 1 ∧
    cb ∉ Kiroro.emitOrder
      (Kiroro.unsubscribe (Kiroro.subscribe (Kiroro.subscribe ec k cb) k cb) k cb) k := by
  refine ⟨fun hn => Kiroro.subscribe_unsubscribe_cancel ec k cb hn, ?_, ?_, ?_⟩
  · cases k <;> simp [Kiroro.subscribe, Kiroro.getCallbacks, Kiroro.setAdd_idem]
  · rw [Kiroro.emitOrder, Kiroro.getCallbacks_subscribe]
    exact Kiroro.setAdd_count_one _ _ h
  · have hnodup : (Kiroro.setAdd (Kiroro.getCallbacks ec k) cb).Nodup :=
      Kiroro.setAdd_nodup _ _ h
    cases k <;>
      · simp only [Kiroro.subscribe, Kiroro.unsubscribe, Kiroro.emitOrder,
          Kiroro.getCallbacks, Kiroro.setAdd_idem]
        exact Kiroro.not_mem_setDelete_of_nodup _ _ hnodup

/-- Witness for C10: a concrete registry `{onTransactionSent = {5}}` with the
fresh callback `7`. -/
theorem Kiroro.c10_event_bus_set_semantics_witness :
    Kiroro.unsubscribe (Kiroro.subscribe Kiroro.exBus .transactionSent 7)
        .transactionSent 7 = Kiroro.exBus ∧
    Kiroro.subscribe (Kiroro.subscribe Kiroro.exBus .transactionSent 7)
        .transactionSent 7 = Kiroro.subscribe Kiroro.exBus .transactionSent 7 ∧
    (Kiroro.emitOrder (Kiroro.subscribe Kiroro.exBus .transactionSent 7)
        .transactionSent).count 7 = 1 ∧
    7 ∉ Kiroro.emitOrder
      (Kiroro.unsubscribe
        (Kiroro.subscribe (Kiroro.subscribe Kiroro.exBus .transactionSent 7)
          .transactionSent 7) .transactionSent 7) .transactionSent := by
  obtain ⟨h1, h2, h3, h4⟩ :=
    Kiroro.c10_event_bus_set_semantics Kiroro.exBus .transactionSent 7 (by decide)
  exact ⟨h1 (by decide), h2, h3, h4⟩
